import Mathlib

/- Verification of the kubernetes control-command dispatcher of the scope probe.

   The embedding covers the two revisions of the controls file shipped in the
   repository (namespace V0 for the older revision, namespace V1 for the newer
   one that adds the describe controls), together with the volume-snapshot
   node-id construction.  Supporting packages that the controls file calls into
   (xfer request/response types, the report node-id codec, the pipe registry
   and the control handler registry) are not part of the shown sources; those
   are modelled from the specification and marked as such in doc comments. -/

/-- Modelled from the spec: a ControlRequest carries the application session
id, the target node identifier, the invoked control identifier and an opaque
payload (xfer.Request, not under src). -/
structure Request where
  AppID : String
  NodeID : String
  Control : String
  ControlArgs : List (String × String) := []
deriving DecidableEq

/-- Modelled from the spec: a ControlResponse has exactly one populated field
among value, removed-node, pipe id and error (xfer.Response, not under src).
Unpopulated fields are `none`. -/
structure Response where
  Value : Option String := none
  RemovedNode : Option String := none
  Pipe : Option String := none
  Error : Option String := none
deriving DecidableEq

/-- Modelled from the spec: xfer.ResponseError wraps an optional client error;
a `none` error yields the empty response (success of a mutation action). -/
def xfer.ResponseError : Option String → Response
  | none => {}
  | some e => { Error := some e }

/-- Modelled from the spec: xfer.ResponseErrorf builds an error response from a
formatted message. -/
def xfer.ResponseErrorf (msg : String) : Response :=
  { Error := some msg }

/-- Resource kinds handled by the dispatcher. -/
inductive Kind where
  | pod
  | deployment
  | service
  | cronJob
  | daemonSet
  | statefulSet
  | persistentVolume
  | persistentVolumeClaim
  | storageClass
  | volumeSnapshot
deriving DecidableEq

/-- Modelled from the spec: per-kind tag embedded in a node identifier; tags
are pairwise distinct and contain no separator character. -/
def kindTag : Kind → List Char
  | .pod => "pod".data
  | .deployment => "deployment".data
  | .service => "service".data
  | .cronJob => "cron_job".data
  | .daemonSet => "daemon_set".data
  | .statefulSet => "stateful_set".data
  | .persistentVolume => "persistent_volume".data
  | .persistentVolumeClaim => "persistent_volume_claim".data
  | .storageClass => "storage_class".data
  | .volumeSnapshot => "volume_snapshot".data

/-- Split a character list at its first separator, returning the parts before
and after it; fails when no separator occurs. -/
def splitAtSemi : List Char → Option (List Char × List Char)
  | [] => none
  | c :: rest =>
    if c = ';' then some ([], rest)
    else
      match splitAtSemi rest with
      | some (a, b) => some (c :: a, b)
      | none => none

/-- Modelled from the spec: the Node Identifier Codec encodes a (kind,
namespace, unique id) triple into a textual identifier (report package, not
under src); the spec requires only its round-trip contract. -/
def report.encodeNodeID (k : Kind) (ns uid : List Char) : List Char :=
  kindTag k ++ ';' :: (ns ++ ';' :: uid)

/-- Modelled from the spec: decoding of a node identifier under an expected
kind; fails on a malformed string and on a kind mismatch. -/
def report.decodeNodeID (k : Kind) (s : List Char) : Option (List Char × List Char) :=
  if s.take (kindTag k).length = kindTag k then
    match s.drop (kindTag k).length with
    | ';' :: rest => splitAtSemi rest
    | _ => none
  else none

/-- Modelled from the spec: kind-specific node-id parser returning the unique
id, as used by the capture adapters. -/
def report.parseNodeID (k : Kind) (s : String) : Option String :=
  (report.decodeNodeID k s.data).map fun p => String.mk p.2

/-- Modelled from the spec: kind-specific node-id constructor from a unique
id (namespace component empty), as used by report.Make*NodeID. -/
def report.makeNodeID (k : Kind) (uid : String) : String :=
  String.mk (report.encodeNodeID k [] uid.data)

def report.ParsePodNodeID (s : String) : Option String := report.parseNodeID .pod s

def report.ParseDeploymentNodeID (s : String) : Option String := report.parseNodeID .deployment s

def report.ParseServiceNodeID (s : String) : Option String := report.parseNodeID .service s

def report.ParseCronJobNodeID (s : String) : Option String := report.parseNodeID .cronJob s

def report.ParseDaemonSetNodeID (s : String) : Option String := report.parseNodeID .daemonSet s

def report.ParseStatefulSetNodeID (s : String) : Option String := report.parseNodeID .statefulSet s

def report.ParsePersistentVolumeNodeID (s : String) : Option String := report.parseNodeID .persistentVolume s

def report.ParsePersistentVolumeClaimNodeID (s : String) : Option String := report.parseNodeID .persistentVolumeClaim s

def report.ParseStorageClassNodeID (s : String) : Option String := report.parseNodeID .storageClass s

def report.ParseVolumeSnapshotNodeID (s : String) : Option String := report.parseNodeID .volumeSnapshot s

def report.MakeVolumeSnapshotNodeID (uid : String) : String := report.makeNodeID .volumeSnapshot uid

/-- Modelled from the spec: report.Deployment is the stable kind/topology name
for deployments, passed to the client scale operations. -/
def report.Deployment : String := "deployment"

/-- Modelled from the spec: the wire-level control-identifier vocabulary
(report package constants, not under src); stable distinct strings. -/
def report.KubernetesGetLogs : String := "kubernetes_get_logs"

def report.KubernetesCreateSnapshot : String := "kubernetes_create_snapshot"

def report.KubernetesDeletePod : String := "kubernetes_delete_pod"

def report.KubernetesDeleteVolumeSnapshot : String := "kubernetes_delete_volume_snapshot"

def report.KubernetesScaleUp : String := "kubernetes_scale_up"

def report.KubernetesScaleDown : String := "kubernetes_scale_down"

def report.KubernetesCloneVolumeSnapshot : String := "kubernetes_clone_volume_snapshot"

def report.KubernetesCreateVolumeSnapshot : String := "kubernetes_create_volume_snapshot"

def report.KubernetesDescribePod : String := "kubernetes_describe_pod"

def report.KubernetesDescribeService : String := "kubernetes_describe_service"

def report.KubernetesCronjob : String := "kubernetes_cronjob"

def report.KubernetesDescribeDeployment : String := "kubernetes_describe_deployment"

def report.KubernetesDescribeDaemonSet : String := "kubernetes_describe_daemonset"

def report.KubernetesDescribePVC : String := "kubernetes_describe_pvc"

def report.KubernetesDescribePV : String := "kubernetes_describe_pv"

def report.KubernetesDescribeSC : String := "kubernetes_describe_sc"

def report.KubernetesDescribeStatefulSet : String := "kubernetes_describe_statefulset"

/-- Schema group-kind descriptor attached to resolved resources (mirrors
schema.GroupKind, passed through to the describe client operation). -/
structure GroupKind where
  Group : String := ""
  Kind : String := ""
deriving DecidableEq

/-- Modelled from the spec: ResourceMap maps a resource kind name to its
schema group-kind descriptor (defined elsewhere in the repository). -/
def ResourceMap (s : String) : GroupKind :=
  { Group := "", Kind := s }

/-- Generic resource handle: the per-kind cache views (Pod, Deployment, ...)
all expose unique id, namespace and name accessors, plus the kind-specific
extras used by the adapters (container names, capacity, bound volume name).
Field names follow the accessor names of the source interfaces. -/
structure Handle where
  UID : String
  Namespace : String := ""
  Name : String := ""
  ContainerNames : List String := []
  GetCapacity : String := ""
  GetVolumeName : String := ""
deriving DecidableEq

/-- Per-kind cache snapshots; the client's Walk operations iterate these
lists in order (WalkPods, WalkDeployments, ...). -/
structure Caches where
  pods : List Handle := []
  deployments : List Handle := []
  services : List Handle := []
  cronJobs : List Handle := []
  daemonSets : List Handle := []
  statefulSets : List Handle := []
  persistentVolumes : List Handle := []
  persistentVolumeClaims : List Handle := []
  storageClasses : List Handle := []
  volumeSnapshots : List Handle := []

/-- Observable effects of a dispatch: calls on the external
cluster-management client, an immediate close of the acquired readable
stream, and attachment of the stream close to the pipe's close callback. -/
inductive Event where
  | clientCall (op : String) (args : List String)
  | streamClosedNow
  | closeAttachedOnPipe
deriving DecidableEq

/-- Pair of the produced response and the emitted events of one handler or
adapter run. -/
abbrev HandlerResult := Response × List Event

/-- Handler bound in the control registry, as dispatched on a request. -/
abbrev ControlHandlerFunc := Request → HandlerResult

/-- External cluster-management client: one operation per handler, each
returning either an error message or its successful result.  The streamed
operations return a readable stream (abstracted to Unit, its lifecycle being
tracked through events). -/
structure Client where
  GetLogs : String → String → List String → Except String Unit
  Describe : String → String → GroupKind → Except String Unit
  CreateSnapshot : String → Option String
  CreateVolumeSnapshot : String → String → String → Option String
  CloneVolumeSnapshot : String → String → String → String → Option String
  DeletePod : String → String → Option String
  DeleteVolumeSnapshot : String → String → Option String
  ScaleUp : String → String → String → Option String
  ScaleDown : String → String → String → Option String

/-- Modelled from the spec: the pipe registry accepts a session id and
returns a freshly allocated pipe identifier or a registration error. -/
abbrev Pipes := String → Except String String

/-- Modelled from the spec: controls.NewPipeFromEnds wraps the duplex channel
built from the stream and a discard sink, and registers it with the pipe
registry under the given application session id. -/
def controls.NewPipeFromEnds (pipes : Pipes) (appID : String) : Except String String :=
  pipes appID

/-- Accumulation loop shared verbatim by every capture adapter: walk the
cache and keep the handle whose unique id equals the decoded uid, later
matches overwriting earlier ones (the `pod = p` assignment inside WalkPods). -/
def resolveByUID (uid : String) (cache : List Handle) : Option Handle :=
  cache.foldl (fun acc p => if p.UID == uid then some p else acc) none

/-- Association-list registry from control identifier to bound handler. -/
abbrev Registry := List (String × ControlHandlerFunc)

/-- Modelled from the spec: the handler registry's atomic batch update first
removes the given identifiers, then adds the given bindings (an add for an
already-present identifier overwrites it). -/
def HandlerRegistry.Batch (reg : Registry) (toRemove : List String) (toAdd : Registry) : Registry :=
  (reg.filter fun e => !(toRemove.contains e.1) && !((toAdd.map Prod.fst).contains e.1)) ++ toAdd


namespace V1

/-- GetLogs control handler (newer revision): obtain the log stream, bridge
it into a pipe scoped to the request's session; close of the stream is
attached to the pipe's close callback only after successful registration. -/
def GetLogs (c : Client) (pipes : Pipes) (req : Request) (namespaceID podID : String)
    (containerNames : List String) (_ : GroupKind) : HandlerResult :=
  let ev := Event.clientCall "GetLogs" ([namespaceID, podID] ++ containerNames)
  match c.GetLogs namespaceID podID containerNames with
  | .error e => (xfer.ResponseError (some e), [ev])
  | .ok _ =>
    match controls.NewPipeFromEnds pipes req.AppID with
    | .error e => (xfer.ResponseError (some e), [ev])
    | .ok id => ({ Pipe := some id }, [ev, .closeAttachedOnPipe])

/-- Shared describe handler: obtain the description stream and bridge it into
a pipe, exactly as GetLogs does. -/
def describe (c : Client) (pipes : Pipes) (req : Request) (namespaceID resourceID : String)
    (groupKind : GroupKind) : HandlerResult :=
  let ev := Event.clientCall "Describe" [namespaceID, resourceID, groupKind.Group, groupKind.Kind]
  match c.Describe namespaceID resourceID groupKind with
  | .error e => (xfer.ResponseError (some e), [ev])
  | .ok _ =>
    match controls.NewPipeFromEnds pipes req.AppID with
    | .error e => (xfer.ResponseError (some e), [ev])
    | .ok id => ({ Pipe := some id }, [ev, .closeAttachedOnPipe])

def describePod (c : Client) (pipes : Pipes) (req : Request) (namespaceID podID : String)
    (_ : List String) (groupKind : GroupKind) : HandlerResult :=
  describe c pipes req namespaceID podID groupKind

def describePVC (c : Client) (pipes : Pipes) (req : Request) (namespaceID pvcID : String)
    (_ : String) (groupKind : GroupKind) : HandlerResult :=
  describe c pipes req namespaceID pvcID groupKind

def cloneVolumeSnapshot (c : Client) (req : Request)
    (namespaceID volumeSnapshotID persistentVolumeClaimID capacity : String) : HandlerResult :=
  (xfer.ResponseError (c.CloneVolumeSnapshot namespaceID volumeSnapshotID persistentVolumeClaimID capacity),
    [Event.clientCall "CloneVolumeSnapshot" [namespaceID, volumeSnapshotID, persistentVolumeClaimID, capacity]])

def createVolumeSnapshot (c : Client) (req : Request)
    (namespaceID persistentVolumeClaimID capacity : String) (_ : GroupKind) : HandlerResult :=
  (xfer.ResponseError (c.CreateVolumeSnapshot namespaceID persistentVolumeClaimID capacity),
    [Event.clientCall "CreateVolumeSnapshot" [namespaceID, persistentVolumeClaimID, capacity]])

def deletePod (c : Client) (req : Request) (namespaceID podID : String)
    (_ : List String) (_ : GroupKind) : HandlerResult :=
  (match c.DeletePod namespaceID podID with
    | some e => xfer.ResponseError (some e)
    | none => { RemovedNode := some req.NodeID },
    [Event.clientCall "DeletePod" [namespaceID, podID]])

def deleteVolumeSnapshot (c : Client) (req : Request) (namespaceID volumeSnapshotID : String)
    (_ _ : String) : HandlerResult :=
  (match c.DeleteVolumeSnapshot namespaceID volumeSnapshotID with
    | some e => xfer.ResponseError (some e)
    | none => { RemovedNode := some req.NodeID },
    [Event.clientCall "DeleteVolumeSnapshot" [namespaceID, volumeSnapshotID]])

/-- Capture adapter for pods: decode the node id, walk the pod cache for the
uid, and hand the resolved attributes to the continuation. -/
def CapturePod (f : Request → String → String → List String → GroupKind → HandlerResult)
    (cache : List Handle) (req : Request) : HandlerResult :=
  match report.ParsePodNodeID req.NodeID with
  | none => (xfer.ResponseErrorf ("Invalid ID: " ++ req.NodeID), [])
  | some uid =>
    match resolveByUID uid cache with
    | none => (xfer.ResponseErrorf ("Pod not found: " ++ uid), [])
    | some pod => f req pod.Namespace pod.Name pod.ContainerNames (ResourceMap "Pod")

def CaptureDeployment (f : Request → String → String → GroupKind → HandlerResult)
    (cache : List Handle) (req : Request) : HandlerResult :=
  match report.ParseDeploymentNodeID req.NodeID with
  | none => (xfer.ResponseErrorf ("Invalid ID: " ++ req.NodeID), [])
  | some uid =>
    match resolveByUID uid cache with
    | none => (xfer.ResponseErrorf ("Deployment not found: " ++ uid), [])
    | some deployment => f req deployment.Namespace deployment.Name (ResourceMap "Deployment")

def CapturePersistentVolumeClaim (f : Request → String → String → String → GroupKind → HandlerResult)
    (cache : List Handle) (req : Request) : HandlerResult :=
  match report.ParsePersistentVolumeClaimNodeID req.NodeID with
  | none => (xfer.ResponseErrorf ("Invalid ID: " ++ req.NodeID), [])
  | some uid =>
    match resolveByUID uid cache with
    | none => (xfer.ResponseErrorf ("Persistent volume claim not found: " ++ uid), [])
    | some pvc => f req pvc.Namespace pvc.Name pvc.GetCapacity (ResourceMap "PersistentVolumeClaim")

def CaptureVolumeSnapshot (f : Request → String → String → String → String → HandlerResult)
    (cache : List Handle) (req : Request) : HandlerResult :=
  match report.ParseVolumeSnapshotNodeID req.NodeID with
  | none => (xfer.ResponseErrorf ("Invalid ID: " ++ req.NodeID), [])
  | some uid =>
    match resolveByUID uid cache with
    | none => (xfer.ResponseErrorf ("Volume snapshot not found: " ++ uid), [])
    | some vs => f req vs.Namespace vs.Name vs.GetVolumeName vs.GetCapacity

def CaptureService (f : Request → String → String → GroupKind → HandlerResult)
    (cache : List Handle) (req : Request) : HandlerResult :=
  match report.ParseServiceNodeID req.NodeID with
  | none => (xfer.ResponseErrorf ("Invalid ID: " ++ req.NodeID), [])
  | some uid =>
    match resolveByUID uid cache with
    | none => (xfer.ResponseErrorf ("Service not found: " ++ uid), [])
    | some service => f req service.Namespace service.Name (ResourceMap "Service")

def CaptureDaemonSet (f : Request → String → String → GroupKind → HandlerResult)
    (cache : List Handle) (req : Request) : HandlerResult :=
  match report.ParseDaemonSetNodeID req.NodeID with
  | none => (xfer.ResponseErrorf ("Invalid ID: " ++ req.NodeID), [])
  | some uid =>
    match resolveByUID uid cache with
    | none => (xfer.ResponseErrorf ("Daemon Set not found: " ++ uid), [])
    | some daemonSet => f req daemonSet.Namespace daemonSet.Name (ResourceMap "DaemonSet")

def CaptureCronJob (f : Request → String → String → GroupKind → HandlerResult)
    (cache : List Handle) (req : Request) : HandlerResult :=
  match report.ParseCronJobNodeID req.NodeID with
  | none => (xfer.ResponseErrorf ("Invalid ID: " ++ req.NodeID), [])
  | some uid =>
    match resolveByUID uid cache with
    | none => (xfer.ResponseErrorf ("Cron Job not found: " ++ uid), [])
    | some cronJob => f req cronJob.Namespace cronJob.Name (ResourceMap "CronJob")

def CaptureStatefulSet (f : Request → String → String → GroupKind → HandlerResult)
    (cache : List Handle) (req : Request) : HandlerResult :=
  match report.ParseStatefulSetNodeID req.NodeID with
  | none => (xfer.ResponseErrorf ("Invalid ID: " ++ req.NodeID), [])
  | some uid =>
    match resolveByUID uid cache with
    | none => (xfer.ResponseErrorf ("Stateful Set not found: " ++ uid), [])
    | some statefulSet => f req statefulSet.Namespace statefulSet.Name (ResourceMap "StatefulSet")

/-- Capture adapter for storage classes: cluster scoped, so the continuation
receives the empty string in namespace position. -/
def CaptureStorageClass (f : Request → String → String → GroupKind → HandlerResult)
    (cache : List Handle) (req : Request) : HandlerResult :=
  match report.ParseStorageClassNodeID req.NodeID with
  | none => (xfer.ResponseErrorf ("Invalid ID: " ++ req.NodeID), [])
  | some uid =>
    match resolveByUID uid cache with
    | none => (xfer.ResponseErrorf ("StorageClass not found: " ++ uid), [])
    | some storageClass => f req "" storageClass.Name (ResourceMap "StorageClass")

/-- Capture adapter for persistent volumes: cluster scoped, so the
continuation receives the empty string in namespace position (the not-found
message carries the source's double space). -/
def CapturePersistentVolume (f : Request → String → String → GroupKind → HandlerResult)
    (cache : List Handle) (req : Request) : HandlerResult :=
  match report.ParsePersistentVolumeNodeID req.NodeID with
  | none => (xfer.ResponseErrorf ("Invalid ID: " ++ req.NodeID), [])
  | some uid =>
    match resolveByUID uid cache with
    | none => (xfer.ResponseErrorf ("Persistent volume  not found: " ++ uid), [])
    | some persistentVolume => f req "" persistentVolume.Name (ResourceMap "PersistentVolume")

/-- ScaleUp control handler: the resolved group-kind argument is discarded
and the client is always invoked with the deployment kind. -/
def ScaleUp (c : Client) (req : Request) (ns id : String) (_ : GroupKind) : HandlerResult :=
  (xfer.ResponseError (c.ScaleUp report.Deployment ns id),
    [Event.clientCall "ScaleUp" [report.Deployment, ns, id]])

/-- ScaleDown control handler: the resolved group-kind argument is discarded
and the client is always invoked with the deployment kind. -/
def ScaleDown (c : Client) (req : Request) (ns id : String) (_ : GroupKind) : HandlerResult :=
  (xfer.ResponseError (c.ScaleDown report.Deployment ns id),
    [Event.clientCall "ScaleDown" [report.Deployment, ns, id]])

/-- The control map built by registerControls (newer revision): sixteen
bindings, including the nine describe controls. -/
def controlsMap (c : Client) (pipes : Pipes) (st : Caches) : Registry :=
  [ (report.KubernetesCloneVolumeSnapshot, CaptureVolumeSnapshot (cloneVolumeSnapshot c) st.volumeSnapshots),
    (report.KubernetesCreateVolumeSnapshot, CapturePersistentVolumeClaim (createVolumeSnapshot c) st.persistentVolumeClaims),
    (report.KubernetesGetLogs, CapturePod (GetLogs c pipes) st.pods),
    (report.KubernetesDescribePod, CapturePod (describePod c pipes) st.pods),
    (report.KubernetesDescribeService, CaptureService (describe c pipes) st.services),
    (report.KubernetesCronjob, CaptureCronJob (describe c pipes) st.cronJobs),
    (report.KubernetesDescribeDeployment, CaptureDeployment (describe c pipes) st.deployments),
    (report.KubernetesDescribeDaemonSet, CaptureDaemonSet (describe c pipes) st.daemonSets),
    (report.KubernetesDescribePVC, CapturePersistentVolumeClaim (describePVC c pipes) st.persistentVolumeClaims),
    (report.KubernetesDescribePV, CapturePersistentVolume (describe c pipes) st.persistentVolumes),
    (report.KubernetesDescribeSC, CaptureStorageClass (describe c pipes) st.storageClasses),
    (report.KubernetesDescribeStatefulSet, CaptureStatefulSet (describe c pipes) st.statefulSets),
    (report.KubernetesDeletePod, CapturePod (deletePod c) st.pods),
    (report.KubernetesDeleteVolumeSnapshot, CaptureVolumeSnapshot (deleteVolumeSnapshot c) st.volumeSnapshots),
    (report.KubernetesScaleUp, CaptureDeployment (ScaleUp c) st.deployments),
    (report.KubernetesScaleDown, CaptureDeployment (ScaleDown c) st.deployments) ]

/-- Batch-add of the full control map at probe startup. -/
def registerControls (c : Client) (pipes : Pipes) (st : Caches) (reg : Registry) : Registry :=
  HandlerRegistry.Batch reg [] (controlsMap c pipes st)

/-- The identifiers batch-removed at probe shutdown (newer revision): only
seven of the sixteen registered controls appear. -/
def deregisteredControlIDs : List String :=
  [ report.KubernetesCloneVolumeSnapshot,
    report.KubernetesCreateVolumeSnapshot,
    report.KubernetesGetLogs,
    report.KubernetesDeletePod,
    report.KubernetesDeleteVolumeSnapshot,
    report.KubernetesScaleUp,
    report.KubernetesScaleDown ]

/-- Batch-remove at probe shutdown. -/
def deregisterControls (reg : Registry) : Registry :=
  HandlerRegistry.Batch reg deregisteredControlIDs []

end V1

namespace V0

/-- GetLogs control handler (older revision): identical stream-to-pipe
bridging, without the group-kind parameter. -/
def GetLogs (c : Client) (pipes : Pipes) (req : Request) (namespaceID podID : String)
    (containerNames : List String) : HandlerResult :=
  let ev := Event.clientCall "GetLogs" ([namespaceID, podID] ++ containerNames)
  match c.GetLogs namespaceID podID containerNames with
  | .error e => (xfer.ResponseError (some e), [ev])
  | .ok _ =>
    match controls.NewPipeFromEnds pipes req.AppID with
    | .error e => (xfer.ResponseError (some e), [ev])
    | .ok id => ({ Pipe := some id }, [ev, .closeAttachedOnPipe])

/-- Snapshot creation handler (older revision): on success it echoes the
request's control identifier in the value field. -/
def createSnapshot (c : Client) (req : Request) (persistentVolumeID : String) : HandlerResult :=
  (match c.CreateSnapshot persistentVolumeID with
    | some e => xfer.ResponseError (some e)
    | none => { Value := some req.Control },
    [Event.clientCall "CreateSnapshot" [persistentVolumeID]])

def deletePod (c : Client) (req : Request) (namespaceID podID : String)
    (_ : List String) : HandlerResult :=
  (match c.DeletePod namespaceID podID with
    | some e => xfer.ResponseError (some e)
    | none => { RemovedNode := some req.NodeID },
    [Event.clientCall "DeletePod" [namespaceID, podID]])

def deleteVolumeSnapshot (c : Client) (req : Request)
    (namespaceID volumeSnapshotID : String) : HandlerResult :=
  (match c.DeleteVolumeSnapshot namespaceID volumeSnapshotID with
    | some e => xfer.ResponseError (some e)
    | none => { RemovedNode := some req.NodeID },
    [Event.clientCall "DeleteVolumeSnapshot" [namespaceID, volumeSnapshotID]])

/-- Capture adapter for pods (older revision): no group-kind is passed to the
continuation. -/
def CapturePod (f : Request → String → String → List String → HandlerResult)
    (cache : List Handle) (req : Request) : HandlerResult :=
  match report.ParsePodNodeID req.NodeID with
  | none => (xfer.ResponseErrorf ("Invalid ID: " ++ req.NodeID), [])
  | some uid =>
    match resolveByUID uid cache with
    | none => (xfer.ResponseErrorf ("Pod not found: " ++ uid), [])
    | some pod => f req pod.Namespace pod.Name pod.ContainerNames

def CaptureDeployment (f : Request → String → String → HandlerResult)
    (cache : List Handle) (req : Request) : HandlerResult :=
  match report.ParseDeploymentNodeID req.NodeID with
  | none => (xfer.ResponseErrorf ("Invalid ID: " ++ req.NodeID), [])
  | some uid =>
    match resolveByUID uid cache with
    | none => (xfer.ResponseErrorf ("Deployment not found: " ++ uid), [])
    | some deployment => f req deployment.Namespace deployment.Name

/-- Capture adapter for persistent volumes (older revision): the continuation
receives only the resolved name. -/
def CapturePersistentVolume (f : Request → String → HandlerResult)
    (cache : List Handle) (req : Request) : HandlerResult :=
  match report.ParsePersistentVolumeNodeID req.NodeID with
  | none => (xfer.ResponseErrorf ("Invalid ID: " ++ req.NodeID), [])
  | some uid =>
    match resolveByUID uid cache with
    | none => (xfer.ResponseErrorf ("Persistent Volume not found: " ++ uid), [])
    | some persistentVolume => f req persistentVolume.Name

def CaptureVolumeSnapshot (f : Request → String → String → HandlerResult)
    (cache : List Handle) (req : Request) : HandlerResult :=
  match report.ParseVolumeSnapshotNodeID req.NodeID with
  | none => (xfer.ResponseErrorf ("Invalid ID: " ++ req.NodeID), [])
  | some uid =>
    match resolveByUID uid cache with
    | none => (xfer.ResponseErrorf ("VolumeSnapshot not found: " ++ uid), [])
    | some volumeSnapshot => f req volumeSnapshot.Namespace volumeSnapshot.Name

/-- ScaleUp control handler (older revision): always invokes the client with
the deployment kind. -/
def ScaleUp (c : Client) (req : Request) (ns id : String) : HandlerResult :=
  (xfer.ResponseError (c.ScaleUp report.Deployment ns id),
    [Event.clientCall "ScaleUp" [report.Deployment, ns, id]])

/-- ScaleDown control handler (older revision): always invokes the client
with the deployment kind. -/
def ScaleDown (c : Client) (req : Request) (ns id : String) : HandlerResult :=
  (xfer.ResponseError (c.ScaleDown report.Deployment ns id),
    [Event.clientCall "ScaleDown" [report.Deployment, ns, id]])

/-- The control map built by registerControls (older revision): six bindings. -/
def controlsMap (c : Client) (pipes : Pipes) (st : Caches) : Registry :=
  [ (report.KubernetesGetLogs, CapturePod (GetLogs c pipes) st.pods),
    (report.KubernetesCreateSnapshot, CapturePersistentVolume (createSnapshot c) st.persistentVolumes),
    (report.KubernetesDeletePod, CapturePod (deletePod c) st.pods),
    (report.KubernetesDeleteVolumeSnapshot, CaptureVolumeSnapshot (deleteVolumeSnapshot c) st.volumeSnapshots),
    (report.KubernetesScaleUp, CaptureDeployment (ScaleUp c) st.deployments),
    (report.KubernetesScaleDown, CaptureDeployment (ScaleDown c) st.deployments) ]

/-- Batch-add of the full control map at probe startup (older revision). -/
def registerControls (c : Client) (pipes : Pipes) (st : Caches) (reg : Registry) : Registry :=
  HandlerRegistry.Batch reg [] (controlsMap c pipes st)

/-- The identifiers batch-removed at probe shutdown (older revision): the
same six identifiers that were registered. -/
def deregisteredControlIDs : List String :=
  [ report.KubernetesGetLogs,
    report.KubernetesCreateSnapshot,
    report.KubernetesDeletePod,
    report.KubernetesDeleteVolumeSnapshot,
    report.KubernetesScaleUp,
    report.KubernetesScaleDown ]

/-- Batch-remove at probe shutdown (older revision). -/
def deregisterControls (reg : Registry) : Registry :=
  HandlerRegistry.Batch reg deregisteredControlIDs []

end V0

/-- Node identifier published for a volume snapshot by GetNode in
volumesnapshot.go: built from the snapshot's unique id. -/
def volumeSnapshotGetNodeID (v : Handle) : String :=
  report.MakeVolumeSnapshotNodeID v.UID

/-- Test client whose every operation succeeds. -/
def succeedClient : Client where
  GetLogs := fun _ _ _ => .ok ()
  Describe := fun _ _ _ => .ok ()
  CreateSnapshot := fun _ => none
  CreateVolumeSnapshot := fun _ _ _ => none
  CloneVolumeSnapshot := fun _ _ _ _ => none
  DeletePod := fun _ _ => none
  DeleteVolumeSnapshot := fun _ _ => none
  ScaleUp := fun _ _ _ => none
  ScaleDown := fun _ _ _ => none

/-- Pipe registry that rejects every registration (unknown session). -/
def noAppPipes : Pipes := fun _ => .error "app not found"

/-- Pipe registry that accepts every registration. -/
def okPipes : Pipes := fun appID => .ok ("pipe-" ++ appID)

/-- Default group-kind value used by concrete test inputs. -/
def gk0 : GroupKind := {}

/-- Request whose node identifier decodes under no kind. -/
def req0 : Request :=
  { AppID := "app1", NodeID := "bogus", Control := "ctl" }

/-- Pod handle of the delete-pod scenario: uid abc, namespace ns1, name foo. -/
def pod0 : Handle :=
  { UID := "abc", Namespace := "ns1", Name := "foo", ContainerNames := ["c1"] }

/-- Cache holding exactly the scenario pod. -/
def podCache : List Handle := [pod0]

/-- Request whose node identifier decodes to kind pod, uid abc. -/
def podReq : Request :=
  { AppID := "app1", NodeID := report.makeNodeID .pod "abc", Control := report.KubernetesDeletePod }

/-- Request whose node identifier decodes to kind pod, uid zzz (absent from
every test cache). -/
def absentPodReq : Request :=
  { AppID := "app1", NodeID := report.makeNodeID .pod "zzz", Control := report.KubernetesDeletePod }

/-- Continuation that marks its invocation through a distinctive response and
a marker event. -/
def markerPodCont : Request → String → String → List String → GroupKind → HandlerResult :=
  fun _ ns n _ _ => ({ Value := some (ns ++ "/" ++ n) }, [Event.clientCall "marker" []])

/-- Marker continuation of the older pod adapter shape. -/
def markerPodContV0 : Request → String → String → List String → HandlerResult :=
  fun _ ns n _ => ({ Value := some (ns ++ "/" ++ n) }, [Event.clientCall "marker" []])

/-- Marker continuation of the namespaced name-only adapter shape. -/
def markerKindCont : Request → String → String → GroupKind → HandlerResult :=
  fun _ ns n _ => ({ Value := some (ns ++ "/" ++ n) }, [Event.clientCall "marker" []])

/-- Marker continuation of the volume-snapshot adapter shape. -/
def markerVsCont : Request → String → String → String → String → HandlerResult :=
  fun _ ns n _ _ => ({ Value := some (ns ++ "/" ++ n) }, [Event.clientCall "marker" []])

/-- Two distinct pod handles sharing the unique id u. -/
def dupA : Handle :=
  { UID := "u", Namespace := "ns1", Name := "n1", ContainerNames := ["k1"] }

def dupB : Handle :=
  { UID := "u", Namespace := "ns2", Name := "n2", ContainerNames := ["k2"] }

/-- Cache in which two handles share the unique id u. -/
def dupCache : List Handle := [dupA, dupB]

/-- Request whose node identifier decodes to kind pod, uid u. -/
def dupReq : Request :=
  { AppID := "app1", NodeID := report.makeNodeID .pod "u", Control := report.KubernetesDeletePod }

/-- Storage-class handle carrying a non-empty namespace field, to show the
adapter still passes the empty string. -/
def sc0 : Handle :=
  { UID := "sc1", Namespace := "nsX", Name := "standard" }

def scReq : Request :=
  { AppID := "app1", NodeID := report.makeNodeID .storageClass "sc1", Control := report.KubernetesDescribeSC }

/-- Persistent-volume handle carrying a non-empty namespace field. -/
def pv0 : Handle :=
  { UID := "pv1", Namespace := "nsY", Name := "vol-1" }

def pvReq : Request :=
  { AppID := "app1", NodeID := report.makeNodeID .persistentVolume "pv1", Control := report.KubernetesDescribePV }

/-- Request invoking the volume-snapshot creation control. -/
def cvsReq : Request :=
  { AppID := "app1", NodeID := report.makeNodeID .persistentVolumeClaim "pvc1",
    Control := report.KubernetesCreateVolumeSnapshot }

theorem splitAtSemi_append (ns uid : List Char) (h : ';' ∉ ns) :
    splitAtSemi (ns ++ ';' :: uid) = some (ns, uid) := by
  induction ns with
  | nil => simp [splitAtSemi]
  | cons c rest ih =>
    have hc : c ≠ ';' := by
      intro hcc
      exact h (by simp [hcc])
    have hr : ';' ∉ rest := fun hm => h (List.mem_cons_of_mem _ hm)
    simp [splitAtSemi, hc, ih hr]

theorem decode_encode (k : Kind) (ns uid : List Char) (h : ';' ∉ ns) :
    report.decodeNodeID k (report.encodeNodeID k ns uid) = some (ns, uid) := by
  have h1 : (kindTag k ++ ';' :: (ns ++ ';' :: uid)).take (kindTag k).length = kindTag k :=
    List.take_left _ _
  have h2 : (kindTag k ++ ';' :: (ns ++ ';' :: uid)).drop (kindTag k).length = ';' :: (ns ++ ';' :: uid) :=
    List.drop_left _ _
  simp [report.decodeNodeID, report.encodeNodeID, h1, h2, splitAtSemi_append ns uid h]

theorem getLast?_cons_or {α : Type} (a : α) (l : List α) :
    (a :: l).getLast? = l.getLast?.or (some a) := by
  induction l generalizing a with
  | nil => rfl
  | cons b m ih =>
    rw [List.getLast?_cons_cons, ih b]
    cases hm : (m.getLast?) <;> simp [Option.or]

theorem foldl_resolve (uid : String) (l : List Handle) (init : Option Handle) :
    l.foldl (fun acc p => if p.UID == uid then some p else acc) init
      = ((l.filter fun p => p.UID == uid).getLast?).or init := by
  induction l generalizing init with
  | nil => simp
  | cons x l ih =>
    rw [List.foldl_cons, List.filter_cons]
    by_cases hx : (x.UID == uid) = true
    · rw [if_pos hx, if_pos hx, ih, getLast?_cons_or]
      cases hA : ((l.filter fun p => p.UID == uid).getLast?) <;> simp [Option.or]
    · rw [if_neg hx, if_neg hx, ih]

theorem resolveByUID_getLast (uid : String) (l : List Handle) :
    resolveByUID uid l = (l.filter fun p => p.UID == uid).getLast? := by
  rw [resolveByUID, foldl_resolve]
  cases hfl : ((l.filter fun p => p.UID == uid).getLast?) <;> simp [Option.or]

/-- C1: the claim states that whenever the client hands GetLogs or describe a
readable stream and pipe registration then fails, the stream is closed before
the error response is returned.  The code does not close it: at a concrete
input where the client succeeds and registration fails, both handlers return
the error response while emitting no stream-close event — the close is only
ever attached to the pipe of a successful registration — so the stream handle
leaks on the registration-failure path. -/
theorem claim_C1_stream_not_closed_on_registration_failure :
    (V1.GetLogs succeedClient noAppPipes req0 "ns" "pod" ["c1"] gk0).1 = { Error := some "app not found" }
  ∧ Event.streamClosedNow ∉ (V1.GetLogs succeedClient noAppPipes req0 "ns" "pod" ["c1"] gk0).2
  ∧ (V1.describe succeedClient noAppPipes req0 "ns" "res" gk0).1 = { Error := some "app not found" }
  ∧ Event.streamClosedNow ∉ (V1.describe succeedClient noAppPipes req0 "ns" "res" gk0).2
  ∧ Event.streamClosedNow ∉ (V0.GetLogs succeedClient noAppPipes req0 "ns" "pod" ["c1"]).2 := by
  decide

/-- C2: the claim states that the identifier set removed by deregisterControls
equals the set added by registerControls.  In the newer revision
registerControls adds sixteen identifiers while deregisterControls removes
only seven: kubernetes_describe_pod is added, is absent from the removal
list, and its handler remains bound after a register/deregister cycle on an
empty registry. -/
theorem claim_C2_deregister_misses_describe_controls :
    ∀ (c : Client) (p : Pipes) (st : Caches),
      report.KubernetesDescribePod ∈ (V1.controlsMap c p st).map Prod.fst
    ∧ report.KubernetesDescribePod ∉ V1.deregisteredControlIDs
    ∧ (V1.deregisterControls (V1.registerControls c p st [])).lookup report.KubernetesDescribePod
        = some (V1.CapturePod (V1.describePod c p) st.pods) := by
  intro c p st
  refine ⟨by simp [V1.controlsMap], by decide, by rfl⟩

/-- C3: for every capture adapter of either revision, a request whose node
identifier fails to decode under the adapter's kind yields the invalid-id
error response with an empty event trace, uniformly in the continuation and
the cache — the cache is not consulted, the continuation is not invoked and
the external client is not called. -/
theorem claim_C3_invalid_id_short_circuits :
    (∀ (f : Request → String → String → List String → GroupKind → HandlerResult)
        (cache : List Handle) (req : Request),
        report.ParsePodNodeID req.NodeID = none →
        V1.CapturePod f cache req = (xfer.ResponseErrorf ("Invalid ID: " ++ req.NodeID), []))
  ∧ (∀ (f : Request → String → String → GroupKind → HandlerResult)
        (cache : List Handle) (req : Request),
        report.ParseDeploymentNodeID req.NodeID = none →
        V1.CaptureDeployment f cache req = (xfer.ResponseErrorf ("Invalid ID: " ++ req.NodeID), []))
  ∧ (∀ (f : Request → String → String → String → GroupKind → HandlerResult)
        (cache : List Handle) (req : Request),
        report.ParsePersistentVolumeClaimNodeID req.NodeID = none →
        V1.CapturePersistentVolumeClaim f cache req = (xfer.ResponseErrorf ("Invalid ID: " ++ req.NodeID), []))
  ∧ (∀ (f : Request → String → String → String → String → HandlerResult)
        (cache : List Handle) (req : Request),
        report.ParseVolumeSnapshotNodeID req.NodeID = none →
        V1.CaptureVolumeSnapshot f cache req = (xfer.ResponseErrorf ("Invalid ID: " ++ req.NodeID), []))
  ∧ (∀ (f : Request → String → String → GroupKind → HandlerResult)
        (cache : List Handle) (req : Request),
        report.ParseServiceNodeID req.NodeID = none →
        V1.CaptureService f cache req = (xfer.ResponseErrorf ("Invalid ID: " ++ req.NodeID), []))
  ∧ (∀ (f : Request → String → String → GroupKind → HandlerResult)
        (cache : List Handle) (req : Request),
        report.ParseDaemonSetNodeID req.NodeID = none →
        V1.CaptureDaemonSet f cache req = (xfer.ResponseErrorf ("Invalid ID: " ++ req.NodeID), []))
  ∧ (∀ (f : Request → String → String → GroupKind → HandlerResult)
        (cache : List Handle) (req : Request),
        report.ParseCronJobNodeID req.NodeID = none →
        V1.CaptureCronJob f cache req = (xfer.ResponseErrorf ("Invalid ID: " ++ req.NodeID), []))
  ∧ (∀ (f : Request → String → String → GroupKind → HandlerResult)
        (cache : List Handle) (req : Request),
        report.ParseStatefulSetNodeID req.NodeID = none →
        V1.CaptureStatefulSet f cache req = (xfer.ResponseErrorf ("Invalid ID: " ++ req.NodeID), []))
  ∧ (∀ (f : Request → String → String → GroupKind → HandlerResult)
        (cache : List Handle) (req : Request),
        report.ParseStorageClassNodeID req.NodeID = none →
        V1.CaptureStorageClass f cache req = (xfer.ResponseErrorf ("Invalid ID: " ++ req.NodeID), []))
  ∧ (∀ (f : Request → String → String → GroupKind → HandlerResult)
        (cache : List Handle) (req : Request),
        report.ParsePersistentVolumeNodeID req.NodeID = none →
        V1.CapturePersistentVolume f cache req = (xfer.ResponseErrorf ("Invalid ID: " ++ req.NodeID), []))
  ∧ (∀ (f : Request → String → String → List String → HandlerResult)
        (cache : List Handle) (req : Request),
        report.ParsePodNodeID req.NodeID = none →
        V0.CapturePod f cache req = (xfer.ResponseErrorf ("Invalid ID: " ++ req.NodeID), []))
  ∧ (∀ (f : Request → String → String → HandlerResult)
        (cache : List Handle) (req : Request),
        report.ParseDeploymentNodeID req.NodeID = none →
        V0.CaptureDeployment f cache req = (xfer.ResponseErrorf ("Invalid ID: " ++ req.NodeID), []))
  ∧ (∀ (f : Request → String → HandlerResult)
        (cache : List Handle) (req : Request),
        report.ParsePersistentVolumeNodeID req.NodeID = none →
        V0.CapturePersistentVolume f cache req = (xfer.ResponseErrorf ("Invalid ID: " ++ req.NodeID), []))
  ∧ (∀ (f : Request → String → String → HandlerResult)
        (cache : List Handle) (req : Request),
        report.ParseVolumeSnapshotNodeID req.NodeID = none →
        V0.CaptureVolumeSnapshot f cache req = (xfer.ResponseErrorf ("Invalid ID: " ++ req.NodeID), [])) := by
  refine ⟨?_, ?_, ?_, ?_, ?_, ?_, ?_, ?_, ?_, ?_, ?_, ?_, ?_, ?_⟩ <;>
    (intro f cache req h
     simp [V1.CapturePod, V1.CaptureDeployment, V1.CapturePersistentVolumeClaim,
       V1.CaptureVolumeSnapshot, V1.CaptureService, V1.CaptureDaemonSet, V1.CaptureCronJob,
       V1.CaptureStatefulSet, V1.CaptureStorageClass, V1.CapturePersistentVolume,
       V0.CapturePod, V0.CaptureDeployment, V0.CapturePersistentVolume,
       V0.CaptureVolumeSnapshot, h])

/-- C3 witness: a concrete request whose identifier decodes under no kind is
rejected by the pod adapter with the invalid-id error and an empty trace. -/
theorem claim_C3_invalid_id_short_circuits_witness :
    report.ParsePodNodeID req0.NodeID = none
  ∧ V1.CapturePod markerPodCont podCache req0
      = (xfer.ResponseErrorf ("Invalid ID: " ++ req0.NodeID), []) :=
  ⟨by decide, claim_C3_invalid_id_short_circuits.1 markerPodCont podCache req0 (by decide)⟩

/-- C4: for every capture adapter of either revision, a request whose node
identifier decodes but whose uid matches no handle in the cache walk yields
the kind-specific not-found error response with an empty event trace,
uniformly in the continuation — the continuation is never invoked, so the
external client is never contacted; on an empty cache the walk never matches. -/
theorem claim_C4_not_found_short_circuits :
    (∀ (f : Request → String → String → List String → GroupKind → HandlerResult)
        (cache : List Handle) (req : Request) (uid : String),
        report.ParsePodNodeID req.NodeID = some uid →
        resolveByUID uid cache = none →
        V1.CapturePod f cache req = (xfer.ResponseErrorf ("Pod not found: " ++ uid), []))
  ∧ (∀ (f : Request → String → String → GroupKind → HandlerResult)
        (cache : List Handle) (req : Request) (uid : String),
        report.ParseDeploymentNodeID req.NodeID = some uid →
        resolveByUID uid cache = none →
        V1.CaptureDeployment f cache req = (xfer.ResponseErrorf ("Deployment not found: " ++ uid), []))
  ∧ (∀ (f : Request → String → String → String → GroupKind → HandlerResult)
        (cache : List Handle) (req : Request) (uid : String),
        report.ParsePersistentVolumeClaimNodeID req.NodeID = some uid →
        resolveByUID uid cache = none →
        V1.CapturePersistentVolumeClaim f cache req
          = (xfer.ResponseErrorf ("Persistent volume claim not found: " ++ uid), []))
  ∧ (∀ (f : Request → String → String → String → String → HandlerResult)
        (cache : List Handle) (req : Request) (uid : String),
        report.ParseVolumeSnapshotNodeID req.NodeID = some uid →
        resolveByUID uid cache = none →
        V1.CaptureVolumeSnapshot f cache req
          = (xfer.ResponseErrorf ("Volume snapshot not found: " ++ uid), []))
  ∧ (∀ (f : Request → String → String → GroupKind → HandlerResult)
        (cache : List Handle) (req : Request) (uid : String),
        report.ParseServiceNodeID req.NodeID = some uid →
        resolveByUID uid cache = none →
        V1.CaptureService f cache req = (xfer.ResponseErrorf ("Service not found: " ++ uid), []))
  ∧ (∀ (f : Request → String → String → GroupKind → HandlerResult)
        (cache : List Handle) (req : Request) (uid : String),
        report.ParseDaemonSetNodeID req.NodeID = some uid →
        resolveByUID uid cache = none →
        V1.CaptureDaemonSet f cache req = (xfer.ResponseErrorf ("Daemon Set not found: " ++ uid), []))
  ∧ (∀ (f : Request → String → String → GroupKind → HandlerResult)
        (cache : List Handle) (req : Request) (uid : String),
        report.ParseCronJobNodeID req.NodeID = some uid →
        resolveByUID uid cache = none →
        V1.CaptureCronJob f cache req = (xfer.ResponseErrorf ("Cron Job not found: " ++ uid), []))
  ∧ (∀ (f : Request → String → String → GroupKind → HandlerResult)
        (cache : List Handle) (req : Request) (uid : String),
        report.ParseStatefulSetNodeID req.NodeID = some uid →
        resolveByUID uid cache = none →
        V1.CaptureStatefulSet f cache req = (xfer.ResponseErrorf ("Stateful Set not found: " ++ uid), []))
  ∧ (∀ (f : Request → String → String → GroupKind → HandlerResult)
        (cache : List Handle) (req : Request) (uid : String),
        report.ParseStorageClassNodeID req.NodeID = some uid →
        resolveByUID uid cache = none →
        V1.CaptureStorageClass f cache req = (xfer.ResponseErrorf ("StorageClass not found: " ++ uid), []))
  ∧ (∀ (f : Request → String → String → GroupKind → HandlerResult)
        (cache : List Handle) (req : Request) (uid : String),
        report.ParsePersistentVolumeNodeID req.NodeID = some uid →
        resolveByUID uid cache = none →
        V1.CapturePersistentVolume f cache req
          = (xfer.ResponseErrorf ("Persistent volume  not found: " ++ uid), []))
  ∧ (∀ (f : Request → String → String → List String → HandlerResult)
        (cache : List Handle) (req : Request) (uid : String),
        report.ParsePodNodeID req.NodeID = some uid →
        resolveByUID uid cache = none →
        V0.CapturePod f cache req = (xfer.ResponseErrorf ("Pod not found: " ++ uid), []))
  ∧ (∀ (f : Request → String → String → HandlerResult)
        (cache : List Handle) (req : Request) (uid : String),
        report.ParseDeploymentNodeID req.NodeID = some uid →
        resolveByUID uid cache = none →
        V0.CaptureDeployment f cache req = (xfer.ResponseErrorf ("Deployment not found: " ++ uid), []))
  ∧ (∀ (f : Request → String → HandlerResult)
        (cache : List Handle) (req : Request) (uid : String),
        report.ParsePersistentVolumeNodeID req.NodeID = some uid →
        resolveByUID uid cache = none →
        V0.CapturePersistentVolume f cache req
          = (xfer.ResponseErrorf ("Persistent Volume not found: " ++ uid), []))
  ∧ (∀ (f : Request → String → String → HandlerResult)
        (cache : List Handle) (req : Request) (uid : String),
        report.ParseVolumeSnapshotNodeID req.NodeID = some uid →
        resolveByUID uid cache = none →
        V0.CaptureVolumeSnapshot f cache req
          = (xfer.ResponseErrorf ("VolumeSnapshot not found: " ++ uid), [])) := by
  refine ⟨?_, ?_, ?_, ?_, ?_, ?_, ?_, ?_, ?_, ?_, ?_, ?_, ?_, ?_⟩ <;>
    (intro f cache req uid h1 h2
     simp [V1.CapturePod, V1.CaptureDeployment, V1.CapturePersistentVolumeClaim,
       V1.CaptureVolumeSnapshot, V1.CaptureService, V1.CaptureDaemonSet, V1.CaptureCronJob,
       V1.CaptureStatefulSet, V1.CaptureStorageClass, V1.CapturePersistentVolume,
       V0.CapturePod, V0.CaptureDeployment, V0.CapturePersistentVolume,
       V0.CaptureVolumeSnapshot, h1, h2])

/-- C4 witness: a concrete pod request with uid zzz against the empty cache
is rejected with the pod not-found error and an empty trace. -/
theorem claim_C4_not_found_short_circuits_witness :
    report.ParsePodNodeID absentPodReq.NodeID = some "zzz"
  ∧ resolveByUID "zzz" [] = none
  ∧ V1.CapturePod markerPodCont [] absentPodReq
      = (xfer.ResponseErrorf ("Pod not found: " ++ "zzz"), []) :=
  ⟨by decide, rfl,
    claim_C4_not_found_short_circuits.1 markerPodCont [] absentPodReq "zzz" (by decide) rfl⟩

/-- C5: the cache walk of every capture adapter accumulates without early
termination, so the handle handed to the continuation is the last matching
handle in walk order: the shared walk loop equals the last element of the
filtered cache, and the pod adapters of both revisions invoke their
continuation with that last match's attributes. -/
theorem claim_C5_last_match_wins :
    (∀ (uid : String) (cache : List Handle),
        resolveByUID uid cache = (cache.filter fun p => p.UID == uid).getLast?)
  ∧ (∀ (f : Request → String → String → List String → GroupKind → HandlerResult)
        (cache : List Handle) (req : Request) (uid : String) (h : Handle),
        report.ParsePodNodeID req.NodeID = some uid →
        (cache.filter fun p => p.UID == uid).getLast? = some h →
        V1.CapturePod f cache req = f req h.Namespace h.Name h.ContainerNames (ResourceMap "Pod"))
  ∧ (∀ (f : Request → String → String → List String → HandlerResult)
        (cache : List Handle) (req : Request) (uid : String) (h : Handle),
        report.ParsePodNodeID req.NodeID = some uid →
        (cache.filter fun p => p.UID == uid).getLast? = some h →
        V0.CapturePod f cache req = f req h.Namespace h.Name h.ContainerNames) := by
  refine ⟨resolveByUID_getLast, ?_, ?_⟩ <;>
    (intro f cache req uid h h1 h2
     simp [V1.CapturePod, V0.CapturePod, h1, resolveByUID_getLast, h2])

/-- C5 witness: on a cache holding two handles that share uid u the pod
adapter invokes the continuation with the second handle's attributes. -/
theorem claim_C5_last_match_wins_witness :
    report.ParsePodNodeID dupReq.NodeID = some "u"
  ∧ (dupCache.filter fun p => p.UID == "u").getLast? = some dupB
  ∧ (dupCache.filter fun p => p.UID == "u").length = 2
  ∧ V1.CapturePod markerPodCont dupCache dupReq
      = markerPodCont dupReq dupB.Namespace dupB.Name dupB.ContainerNames (ResourceMap "Pod") :=
  ⟨by decide, by decide, by decide,
    claim_C5_last_match_wins.2.1 markerPodCont dupCache dupReq "u" dupB (by decide) (by decide)⟩

/-- C6 counterexample: the claim states every snapshot-creation handler
echoes the request's control identifier as the response value; the newer
revision's createVolumeSnapshot returns, on client success, a response whose
value field is unpopulated. -/
theorem claim_C6_counterexample :
    ¬ (V1.createVolumeSnapshot succeedClient cvsReq "ns" "pvc1" "1Gi" gk0).1.Value
        = some cvsReq.Control := by
  decide

/-- C6 (amended): on client success the older revision's createSnapshot
returns the request's control identifier as the response value with no other
field populated, while the newer revision's createVolumeSnapshot and
cloneVolumeSnapshot return the empty response; each performs exactly one
client call. -/
theorem claim_C6_snapshot_success_responses :
    (∀ (c : Client) (req : Request) (persistentVolumeID : String),
        c.CreateSnapshot persistentVolumeID = none →
        V0.createSnapshot c req persistentVolumeID
          = ({ Value := some req.Control }, [Event.clientCall "CreateSnapshot" [persistentVolumeID]]))
  ∧ (∀ (c : Client) (req : Request) (ns pvc cap : String) (gk : GroupKind),
        c.CreateVolumeSnapshot ns pvc cap = none →
        V1.createVolumeSnapshot c req ns pvc cap gk
          = ({}, [Event.clientCall "CreateVolumeSnapshot" [ns, pvc, cap]]))
  ∧ (∀ (c : Client) (req : Request) (ns vs pvc cap : String),
        c.CloneVolumeSnapshot ns vs pvc cap = none →
        V1.cloneVolumeSnapshot c req ns vs pvc cap
          = ({}, [Event.clientCall "CloneVolumeSnapshot" [ns, vs, pvc, cap]])) := by
  refine ⟨?_, ?_, ?_⟩
  · intro c req pvID h
    simp [V0.createSnapshot, h]
  · intro c req ns pvc cap gk h
    simp [V1.createVolumeSnapshot, h, xfer.ResponseError]
  · intro c req ns vs pvc cap h
    simp [V1.cloneVolumeSnapshot, h, xfer.ResponseError]

/-- C6 witness: a succeeding client makes the older createSnapshot echo the
request's control identifier. -/
theorem claim_C6_snapshot_success_responses_witness :
    succeedClient.CreateSnapshot "pv-1" = none
  ∧ V0.createSnapshot succeedClient req0 "pv-1"
      = ({ Value := some req0.Control }, [Event.clientCall "CreateSnapshot" ["pv-1"]]) :=
  ⟨rfl, claim_C6_snapshot_success_responses.1 succeedClient req0 "pv-1" rfl⟩

/-- C7: on a cache whose walk resolves uid abc to a pod in namespace ns1
named foo, dispatching the delete-pod control through the pod adapter calls
the client's DeletePod with ns1 and foo exactly once (the trace is that
single call) and, on client success, returns a response whose removed-node
field is the request's original node identifier. -/
theorem claim_C7_delete_pod_scenario :
    ∀ (c : Client) (req : Request) (cache : List Handle) (pod : Handle),
      report.ParsePodNodeID req.NodeID = some "abc" →
      resolveByUID "abc" cache = some pod →
      pod.Namespace = "ns1" → pod.Name = "foo" →
      c.DeletePod "ns1" "foo" = none →
      V1.CapturePod (V1.deletePod c) cache req
        = ({ RemovedNode := some req.NodeID }, [Event.clientCall "DeletePod" ["ns1", "foo"]]) := by
  intro c req cache pod h1 h2 hns hn hdel
  simp [V1.CapturePod, h1, h2, V1.deletePod, hns, hn, hdel]

/-- C7 witness: the scenario instantiated with the concrete pod cache, a
request carrying the pod node id for abc, and a succeeding client. -/
theorem claim_C7_delete_pod_scenario_witness :
    report.ParsePodNodeID podReq.NodeID = some "abc"
  ∧ resolveByUID "abc" podCache = some pod0
  ∧ pod0.Namespace = "ns1" ∧ pod0.Name = "foo"
  ∧ succeedClient.DeletePod "ns1" "foo" = none
  ∧ V1.CapturePod (V1.deletePod succeedClient) podCache podReq
      = ({ RemovedNode := some podReq.NodeID }, [Event.clientCall "DeletePod" ["ns1", "foo"]]) :=
  ⟨by decide, by decide, rfl, rfl, rfl,
    claim_C7_delete_pod_scenario succeedClient podReq podCache pod0 (by decide) (by decide) rfl rfl rfl⟩

/-- C8: the node identifier codec round-trips: decoding the encoding of any
valid (kind, namespace, uid) triple returns the triple's components, and in
particular a volume-snapshot node id built by MakeVolumeSnapshotNodeID from a
uid parses back under ParseVolumeSnapshotNodeID to that uid. -/
theorem claim_C8_nodeid_roundtrip :
    (∀ (k : Kind) (ns uid : List Char), ';' ∉ ns →
        report.decodeNodeID k (report.encodeNodeID k ns uid) = some (ns, uid))
  ∧ (∀ uid : String,
        report.ParseVolumeSnapshotNodeID (report.MakeVolumeSnapshotNodeID uid) = some uid) := by
  refine ⟨decode_encode, ?_⟩
  intro uid
  have h := decode_encode .volumeSnapshot [] uid.data (by simp)
  simp [report.ParseVolumeSnapshotNodeID, report.parseNodeID, report.MakeVolumeSnapshotNodeID,
    report.makeNodeID, h]

/-- C8 witness: the round trip evaluated at the concrete triple (pod, ns1,
uid-1) and at the volume-snapshot uid snap-1. -/
theorem claim_C8_nodeid_roundtrip_witness :
    ';' ∉ "ns1".data
  ∧ report.decodeNodeID .pod (report.encodeNodeID .pod "ns1".data "uid-1".data)
      = some ("ns1".data, "uid-1".data)
  ∧ report.ParseVolumeSnapshotNodeID (report.MakeVolumeSnapshotNodeID "snap-1") = some "snap-1" :=
  ⟨by decide, claim_C8_nodeid_roundtrip.1 .pod "ns1".data "uid-1".data (by decide),
    claim_C8_nodeid_roundtrip.2 "snap-1"⟩

/-- C9: the scale handlers of both revisions discard the resolved group-kind
and always invoke the client's scale operation with the deployment kind, as
both the result and the recorded call show; and in the newer revision's
control map the scale-up and scale-down controls are bound through the
deployment capture adapter only. -/
theorem claim_C9_scale_always_deployment_kind :
    (∀ (c : Client) (req : Request) (ns id : String) (gk : GroupKind),
        V1.ScaleUp c req ns id gk
          = (xfer.ResponseError (c.ScaleUp report.Deployment ns id),
              [Event.clientCall "ScaleUp" [report.Deployment, ns, id]]))
  ∧ (∀ (c : Client) (req : Request) (ns id : String) (gk : GroupKind),
        V1.ScaleDown c req ns id gk
          = (xfer.ResponseError (c.ScaleDown report.Deployment ns id),
              [Event.clientCall "ScaleDown" [report.Deployment, ns, id]]))
  ∧ (∀ (c : Client) (req : Request) (ns id : String),
        V0.ScaleUp c req ns id
          = (xfer.ResponseError (c.ScaleUp report.Deployment ns id),
              [Event.clientCall "ScaleUp" [report.Deployment, ns, id]]))
  ∧ (∀ (c : Client) (req : Request) (ns id : String),
        V0.ScaleDown c req ns id
          = (xfer.ResponseError (c.ScaleDown report.Deployment ns id),
              [Event.clientCall "ScaleDown" [report.Deployment, ns, id]]))
  ∧ (∀ (c : Client) (p : Pipes) (st : Caches),
        (V1.controlsMap c p st).lookup report.KubernetesScaleUp
          = some (V1.CaptureDeployment (V1.ScaleUp c) st.deployments))
  ∧ (∀ (c : Client) (p : Pipes) (st : Caches),
        (V1.controlsMap c p st).lookup report.KubernetesScaleDown
          = some (V1.CaptureDeployment (V1.ScaleDown c) st.deployments)) :=
  ⟨fun _ _ _ _ _ => rfl, fun _ _ _ _ _ => rfl, fun _ _ _ _ => rfl, fun _ _ _ _ => rfl,
    fun _ _ _ => rfl, fun _ _ _ => rfl⟩

/-- C10: the capture adapters of the cluster-scoped kinds (storage class and
persistent volume, newer revision) always invoke their continuation with the
empty string as the namespace argument once the identifier resolves to a
cached handle. -/
theorem claim_C10_cluster_scoped_empty_namespace :
    (∀ (f : Request → String → String → GroupKind → HandlerResult)
        (cache : List Handle) (req : Request) (uid : String) (h : Handle),
        report.ParseStorageClassNodeID req.NodeID = some uid →
        resolveByUID uid cache = some h →
        V1.CaptureStorageClass f cache req = f req "" h.Name (ResourceMap "StorageClass"))
  ∧ (∀ (f : Request → String → String → GroupKind → HandlerResult)
        (cache : List Handle) (req : Request) (uid : String) (h : Handle),
        report.ParsePersistentVolumeNodeID req.NodeID = some uid →
        resolveByUID uid cache = some h →
        V1.CapturePersistentVolume f cache req = f req "" h.Name (ResourceMap "PersistentVolume")) := by
  refine ⟨?_, ?_⟩ <;>
    (intro f cache req uid h h1 h2
     simp [V1.CaptureStorageClass, V1.CapturePersistentVolume, h1, h2])

/-- C10 witness: a storage-class handle whose namespace field is non-empty is
still handed to the continuation with an empty namespace argument. -/
theorem claim_C10_cluster_scoped_empty_namespace_witness :
    report.ParseStorageClassNodeID scReq.NodeID = some "sc1"
  ∧ resolveByUID "sc1" [sc0] = some sc0
  ∧ sc0.Namespace = "nsX"
  ∧ V1.CaptureStorageClass markerKindCont [sc0] scReq
      = markerKindCont scReq "" sc0.Name (ResourceMap "StorageClass") :=
  ⟨by decide, by decide, rfl,
    claim_C10_cluster_scoped_empty_namespace.1 markerKindCont [sc0] scReq "sc1" sc0
      (by decide) (by decide)⟩
